import Mathlib

/-!
# Verification of the game-action proxy endpoint

Shallow embedding of the serverless HTTP dispatcher and its Supabase REST
gateway. The repository contains two complete revisions of the same module:

* `ApiIndex` embeds the revision in `src/api/index.js` (the complete handler
  in that file: credential check in `callSupabase`, else-if `Prefer` logic,
  placeholder action handlers, 400/500 error-status rule);
* `Part000` embeds the earlier revision in `src/unnamed/part_000`
  (no credential check, two independent `Prefer` ifs, real PATCH calls in the
  mutating handlers, always-500 error status).

JavaScript values appearing in the request/response path are modelled by
`JsonVal` (numbers as integers, which covers every value the claims touch),
with JS truthiness (`jsFalsy`), property access (`getField`, yielding
`undefined` for a missing field, as in JS), and template-literal string
conversion (`jsToString`). The outcome of each `fetch` is supplied by an
environment `Env`; the requests actually issued are collected in order so
that temporal claims about gateway calls can be stated.
-/

mutual

/-- JavaScript/JSON values flowing through the dispatcher. `undefined` is the JS
value of the same name (the result of reading an absent property); JSON itself never
contains it. Numbers are modelled as integers. -/
inductive JsonVal : Type where
  | null : JsonVal
  | undefined : JsonVal
  | bool : Bool → JsonVal
  | num : Int → JsonVal
  | str : String → JsonVal
  | arr : JsonList → JsonVal
  | obj : JsonFields → JsonVal
  deriving DecidableEq, Repr

/-- A JS array of values. -/
inductive JsonList : Type where
  | nil : JsonList
  | cons : JsonVal → JsonList → JsonList
  deriving DecidableEq, Repr

/-- The ordered fields of a JS object. -/
inductive JsonFields : Type where
  | nil : JsonFields
  | fcons : String → JsonVal → JsonFields → JsonFields
  deriving DecidableEq, Repr

end

/-- Build a `JsonList` from a Lean list (notation convenience only). -/
def JsonList.ofList : List JsonVal → JsonList
  | [] => .nil
  | x :: xs => .cons x (JsonList.ofList xs)

/-- Build `JsonFields` from a Lean list (notation convenience only). -/
def JsonFields.ofList : List (String × JsonVal) → JsonFields
  | [] => .nil
  | (k, v) :: xs => .fcons k v (JsonFields.ofList xs)

/-- A JS array literal. -/
def jarr (xs : List JsonVal) : JsonVal := .arr (JsonList.ofList xs)

/-- A JS object literal. -/
def jobj (fields : List (String × JsonVal)) : JsonVal :=
  .obj (JsonFields.ofList fields)

/-- JS falsiness: `null`, `undefined`, `false`, `0` and `""` are falsy;
every array and object is truthy. -/
def jsFalsy : JsonVal → Bool
  | .null => true
  | .undefined => true
  | .bool b => !b
  | .num n => n = 0
  | .str s => s = ""
  | .arr _ => false
  | .obj _ => false

/-- JS truthiness (negation of `jsFalsy`). -/
def jsTruthy (v : JsonVal) : Bool := !(jsFalsy v)

mutual

/-- JS string conversion, as used by template literals: `String(v)`. -/
def jsToString : JsonVal → String
  | .null => "null"
  | .undefined => "undefined"
  | .bool b => cond b "true" "false"
  | .num n => toString n
  | .str s => s
  | .arr xs => String.intercalate "," (jsToStringList xs)
  | .obj _ => "[object Object]"

/-- String conversion of every element of an array. -/
def jsToStringList : JsonList → List String
  | .nil => []
  | .cons x xs => jsToString x :: jsToStringList xs

end

/-- First binding of a key among object fields, JS-`undefined` if absent. -/
def lookupField : JsonFields → String → JsonVal
  | .nil, _ => .undefined
  | .fcons k v rest, key => if k = key then v else lookupField rest key

/-- JS property read `v[key]`: a field of an object, `undefined` otherwise
(and in particular `undefined` on an empty row-set array). -/
def getField : JsonVal → String → JsonVal
  | .obj fields, key => lookupField fields key
  | _, _ => .undefined

/-- JS `a || b`. -/
def jsOr (a b : JsonVal) : JsonVal := if jsFalsy a then b else a

/-- JS `typeof v === "number"`. -/
def isNumber : JsonVal → Bool
  | .num _ => true
  | _ => false

/-- Whether a value is a one-element array (the gateway's unwrap case). -/
def isSingletonArr : JsonVal → Bool
  | .arr (.cons _ .nil) => true
  | _ => false

/-- Whether the first character list is an initial segment of the second. -/
def startsWith : List Char → List Char → Bool
  | [], _ => true
  | _ :: _, [] => false
  | a :: as, b :: bs => a = b && startsWith as bs

/-- Whether `sub` occurs somewhere in the character list. -/
def strContainsAux (sub : List Char) : List Char → Bool
  | [] => startsWith sub []
  | c :: cs => startsWith sub (c :: cs) || strContainsAux sub cs

/-- JS `s.includes(sub)`. -/
def containsSub (s sub : String) : Bool := strContainsAux sub.data s.data

/-- The two process-configuration secrets (`NEXT_PUBLIC_SUPABASE_URL`,
`NEXT_PUBLIC_SUPABASE_ANON_KEY`); `none` models an unset variable. -/
structure Config : Type where
  supabaseUrl : Option String
  supabaseAnonKey : Option String
  deriving Repr, DecidableEq

/-- JS falsiness of an environment variable (`undefined` or empty string). -/
def envFalsy : Option String → Bool
  | none => true
  | some s => s = ""

/-- Template-literal interpolation of an environment variable
(`undefined` prints as the string "undefined"). -/
def optToStr : Option String → String
  | none => "undefined"
  | some s => s

/-- An outbound request as handed to `fetch` by `callSupabase`. -/
structure SupabaseRequest : Type where
  url : String
  table : String
  method : String
  prefer : Option String
  body : Option JsonVal
  filter : String
  deriving Repr, DecidableEq

/-- The observable outcome of one `fetch`: 204 no-content, a 2xx response
with parsed JSON, a 2xx response whose body fails to parse as JSON, a
non-2xx response with status and body text, or a rejected fetch. -/
inductive FetchOutcome : Type where
  | ok204 : FetchOutcome
  | okJson : JsonVal → FetchOutcome
  | okBadJson : String → FetchOutcome
  | httpError : Nat → String → FetchOutcome
  | netError : String → FetchOutcome
  deriving Repr, DecidableEq

/-- The external world: the outcome of each possible outbound request. -/
abbrev Env : Type := SupabaseRequest → FetchOutcome

/-- Resource address: base + "/rest/v1/" + table + optional "?" + filter
(both revisions build it with the same template literal). -/
def buildUrl (cfg : Config) (table filter : String) : String :=
  optToStr cfg.supabaseUrl ++ "/rest/v1/" ++ table ++
    (if filter = "" then "" else "?" ++ filter)

/-- Row-set normalization shared verbatim by both revisions: a one-element
array is unwrapped to its element, anything else is returned as-is. -/
def normalizeRows : JsonVal → JsonVal
  | .arr (.cons x .nil) => x
  | v => v

/-- What the client observes: status code, whether the three CORS headers
were set, and the JSON envelope (`none` for an empty body). -/
structure HttpResponse : Type where
  status : Nat
  corsHeaders : Bool
  body : Option JsonVal
  deriving Repr, DecidableEq

/-- The raw request body as seen by the body reader: empty stream, a stream
that parses to a JSON value, or a stream that is not valid JSON. -/
inductive BodyInput : Type where
  | empty : BodyInput
  | parsed : JsonVal → BodyInput
  | malformed : BodyInput
  deriving Repr, DecidableEq

/-- The validation error thrown when `userId` or `action` is missing or
falsy, shared by both revisions. -/
def missingParamsMsg : String := "Missing required parameters: userId or action."

/-- The TypeError raised by `const \x7b userId, action, ...data \x7d = body`
when `body` is JSON `null` (quotes of the Node message elided). -/
def nullDestructureMsg : String :=
  "Cannot destructure property userId of body as it is null."

/-- The seven recognized action identifiers of the `switch`. -/
def actionKnown (a : JsonVal) : Prop :=
  a = .str "getBalanceAndTaskStatus" ∨ a = .str "addPoints" ∨
  a = .str "claimTaskReward" ∨ a = .str "watchAd" ∨
  a = .str "executeSwap" ∨ a = .str "spin" ∨ a = .str "ref"

instance (a : JsonVal) : Decidable (actionKnown a) := by
  unfold actionKnown
  infer_instance

/-- The `addPoints` guard: a numeric, non-negative `points` value. -/
def validPoints : JsonVal → Bool
  | .num n => decide (0 ≤ n)
  | _ => false

namespace ApiIndex

/-- Prefer-header rule of the `src/api/index.js` revision (lines 49-53 and
216-220): an else-if chain — minimal for audit-log inserts, representation
for every other POST or PATCH, nothing for GET. -/
def preferHeader (table method : String) : Option String :=
  if method = "POST" ∧ table = "actions_log" then some "return=minimal"
  else if method = "PATCH" ∨ method = "POST" then some "return=representation"
  else none

/-- Response handling inside `callSupabase`'s try block: 204 becomes a
success marker, a JSON body is row-normalized, a non-2xx status or any
thrown error is wrapped into "Database operation failed: ...". -/
def responseResult : FetchOutcome → Except String JsonVal
  | .ok204 => .ok (jobj [("success", .bool true), ("data", .null)])
  | .okJson v => .ok (normalizeRows v)
  | .okBadJson msg => .error ("Database operation failed: " ++ msg)
  | .httpError status text =>
      .error ("Database operation failed: Supabase API Error " ++
        toString status ++ ": " ++ text)
  | .netError msg => .error ("Database operation failed: " ++ msg)

/-- Gateway `callSupabase` of `src/api/index.js`: fails fast (before any fetch) when
either secret is falsy, otherwise issues exactly one request and interprets
its outcome. Returns the result together with the requests issued. -/
def callSupabase (cfg : Config) (env : Env) (table method : String)
    (body : Option JsonVal) (filter : String) :
    Except String JsonVal × List SupabaseRequest :=
  if envFalsy cfg.supabaseUrl || envFalsy cfg.supabaseAnonKey then
    (.error "Supabase credentials are not configured.", [])
  else
    (responseResult
      (env ⟨buildUrl cfg table filter, table, method, preferHeader table method,
            body, filter⟩),
     [⟨buildUrl cfg table filter, table, method, preferHeader table method,
       body, filter⟩])

/-- Audit write `logAction`: fire-and-forget insert; the result of the call is
discarded by the `.catch` (only the issued request is observable). -/
def logAction (cfg : Config) (env : Env) (userId action payload : JsonVal) :
    List SupabaseRequest :=
  (callSupabase cfg env "actions_log" "POST"
    (some (jobj [("action", action), ("user_id", userId), ("payload", payload)]))
    "").2

/-- Status-code rule of the error handler (line 411): 400 when the message
contains "JSON" or "Missing", 500 otherwise. -/
def errorStatus (msg : String) : Nat :=
  if containsSub msg "JSON" || containsSub msg "Missing" then 400 else 500

/-- Error response of this revision: `{ok:false, error}` with the 400/500
status rule. -/
def errResponse (msg : String) : HttpResponse :=
  ⟨errorStatus msg, true, some (jobj [("ok", .bool false), ("error", .str msg)])⟩

/-- Body reader `getBody`: an empty stream resolves to an empty object, invalid JSON rejects. -/
def getBody : BodyInput → Except String JsonVal
  | .empty => .ok (jobj [])
  | .parsed v => .ok v
  | .malformed => .error "Invalid JSON format in request body."

/-- The `switch (action)` of this revision. Every mutating action is a
placeholder returning a message without touching the gateway; only
`getBalanceAndTaskStatus` calls it. Returns the handler result and the
gateway requests it issued. -/
def runAction (cfg : Config) (env : Env) (userId action body : JsonVal) :
    Except String JsonVal × List SupabaseRequest :=
  if action = .str "getBalanceAndTaskStatus" then
    let r := callSupabase cfg env "users" "GET" none
      ("id=eq." ++ jsToString userId ++
       "&select=points,usdt,ticket,join_status,ads_left")
    match r.1 with
    | .error e => (.error e, r.2)
    | .ok userData =>
      if jsFalsy userData then
        (.error "User data not found. Please ensure user registration/upsert is implemented.", r.2)
      else
        (.ok (jobj [("points", getField userData "points"),
                    ("usdt", getField userData "usdt"),
                    ("ticket", getField userData "ticket"),
                    ("joinTaskStatus", getField userData "join_status"),
                    ("adsLeft", getField userData "ads_left")]), r.2)
  else if action = .str "addPoints" then
    match getField body "points" with
    | .num n =>
      if n < 0 then (.error "Invalid points value.", [])
      else
        (.ok (jobj [("message",
          .str ("Requested addition of " ++ toString n ++ " points."))]), [])
    | _ => (.error "Invalid points value.", [])
  else if action = .str "claimTaskReward" then
    if getField body "task" = .str "joinChannel" then
      match getField body "reward" with
      | .num r =>
        (.ok (jobj [("message",
          .str ("Requested claim for " ++ toString r ++ " tickets for " ++
            jsToString (getField body "task") ++ "."))]), [])
      | _ => (.error "Invalid task data.", [])
    else (.error "Invalid task data.", [])
  else if action = .str "watchAd" then
    match getField body "reward" with
    | .num r =>
      (.ok (jobj [("message",
        .str ("Requested ad watch and " ++ toString r ++ " ticket addition."))]), [])
    | _ => (.error "Invalid ad reward.", [])
  else if action = .str "executeSwap" then
    match getField body "newPoints" with
    | .num np =>
      if jsFalsy (getField body "newUsdt") then (.error "Invalid swap data.", [])
      else
        (.ok (jobj [("message", .str "Swap request sent for processing."),
                    ("newPoints", .num np),
                    ("newUsdt", getField body "newUsdt")]), [])
    | _ => (.error "Invalid swap data.", [])
  else if action = .str "spin" then
    (.ok (jobj [("message", .str "Spin request sent.")]), [])
  else if action = .str "ref" then
    (.ok (jobj [("message", .str "Referral data requested.")]), [])
  else
    (.error ("Unknown action: " ++ jsToString action), [])

/-- Success envelope spread: ok and action first, then the handler payload. -/
def mkEnvelope (action responseData : JsonVal) : JsonVal :=
  match responseData with
  | .obj fields => .obj (.fcons "ok" (.bool true) (.fcons "action" action fields))
  | _ => .obj (.fcons "ok" (.bool true) (.fcons "action" action .nil))

/-- Body of the try block for a POST request: parse, destructure (JSON
`null` raises the destructuring TypeError), validate `userId`/`action`
truthiness, fire the audit write, run the selected action, serialize. -/
def handlePost (cfg : Config) (env : Env) (bodyIn : BodyInput) :
    HttpResponse × List SupabaseRequest :=
  match getBody bodyIn with
  | .error msg => (errResponse msg, [])
  | .ok body =>
    if body = .null then (errResponse nullDestructureMsg, [])
    else
      if jsFalsy (getField body "userId") || jsFalsy (getField body "action") then
        (errResponse missingParamsMsg, [])
      else
        let auditCalls := logAction cfg env (getField body "userId")
          (getField body "action") body
        match runAction cfg env (getField body "userId")
          (getField body "action") body with
        | (.ok responseData, calls) =>
          (⟨200, true, some (mkEnvelope (getField body "action") responseData)⟩,
           auditCalls ++ calls)
        | (.error msg, calls) => (errResponse msg, auditCalls ++ calls)

/-- The exported request handler (`module.exports`): CORS headers on every
response, 204 for OPTIONS, 405 for any method other than POST, otherwise
the POST pipeline. -/
def handler (cfg : Config) (env : Env) (method : String) (bodyIn : BodyInput) :
    HttpResponse × List SupabaseRequest :=
  if method = "OPTIONS" then (⟨204, true, none⟩, [])
  else if method = "POST" then handlePost cfg env bodyIn
  else
    (⟨405, true, some (jobj [("ok", .bool false),
      ("error", .str "Method Not Allowed. Only POST is supported.")])⟩, [])

end ApiIndex

namespace Part000

/-- Prefer-header rule of the `src/unnamed/part_000` revision (lines 25-31):
two independent ifs — the second (`PATCH || POST`) runs after the first and
overwrites the minimal preference set for audit-log inserts. -/
def preferHeader (table method : String) : Option String :=
  let h := if method = "POST" ∧ table = "actions_log" then some "return=minimal"
           else none
  if method = "PATCH" ∨ method = "POST" then some "return=representation" else h

/-- Response handling inside this revision's try block; identical to the
later revision except for the non-2xx message format
("Supabase Error: status - text"). -/
def responseResult : FetchOutcome → Except String JsonVal
  | .ok204 => .ok (jobj [("success", .bool true), ("data", .null)])
  | .okJson v => .ok (normalizeRows v)
  | .okBadJson msg => .error ("Database operation failed: " ++ msg)
  | .httpError status text =>
      .error ("Database operation failed: Supabase Error: " ++
        toString status ++ " - " ++ text)
  | .netError msg => .error ("Database operation failed: " ++ msg)

/-- Gateway `callSupabase` of `src/unnamed/part_000`: no configuration check at all —
the request is always issued (with the literal "undefined" interpolated into
the address when a secret is unset). -/
def callSupabase (cfg : Config) (env : Env) (table method : String)
    (body : Option JsonVal) (filter : String) :
    Except String JsonVal × List SupabaseRequest :=
  (responseResult
    (env ⟨buildUrl cfg table filter, table, method, preferHeader table method,
          body, filter⟩),
   [⟨buildUrl cfg table filter, table, method, preferHeader table method,
     body, filter⟩])

/-- Audit write of this revision (result likewise discarded by the catch). -/
def logAction (cfg : Config) (env : Env) (userId action payload : JsonVal) :
    List SupabaseRequest :=
  (callSupabase cfg env "actions_log" "POST"
    (some (jobj [("action", action), ("user_id", userId), ("payload", payload)]))
    "").2

/-- Error response of this revision: the catch block always writes 500. -/
def errResponse (msg : String) : HttpResponse :=
  ⟨500, true, some (jobj [("ok", .bool false), ("error", .str msg)])⟩

/-- Inline body reader of this revision: no empty-stream special case, so an
empty body is a JSON parse failure. -/
def getBody : BodyInput → Except String JsonVal
  | .empty => .error "Invalid JSON format in request body."
  | .parsed v => .ok v
  | .malformed => .error "Invalid JSON format in request body."

/-- The `switch (action)` of this revision: the mutating actions issue real
PATCH calls with absolute values, checking some results for JS truthiness. -/
def runAction (cfg : Config) (env : Env) (userId action body : JsonVal) :
    Except String JsonVal × List SupabaseRequest :=
  if action = .str "getBalanceAndTaskStatus" then
    let r := callSupabase cfg env "users" "GET" none
      ("id=eq." ++ jsToString userId ++
       "&select=points,usdt,ticket,join_status,ads_left")
    match r.1 with
    | .error e => (.error e, r.2)
    | .ok userData =>
      if jsFalsy userData then
        (.error "User not found in DB. Please ensure user registration/upsert is handled.", r.2)
      else
        (.ok (jobj [("points", getField userData "points"),
                    ("usdt", getField userData "usdt"),
                    ("ticket", getField userData "ticket"),
                    ("joinTaskStatus", jsOr (getField userData "join_status") (.str "join")),
                    ("adsLeft", jsOr (getField userData "ads_left") (.num 300))]), r.2)
  else if action = .str "addPoints" then
    match getField body "points" with
    | .num n =>
      if n < 0 then (.error "Invalid points value.", [])
      else
        let r := callSupabase cfg env "users" "PATCH"
          (some (jobj [("points", .num n)])) ("id=eq." ++ jsToString userId)
        match r.1 with
        | .error e => (.error e, r.2)
        | .ok _ =>
          (.ok (jobj [("message",
            .str ("Successfully added " ++ toString n ++ " points."))]), r.2)
    | _ => (.error "Invalid points value.", [])
  else if action = .str "claimTaskReward" then
    if getField body "task" = .str "joinChannel" then
      match getField body "reward" with
      | .num rw =>
        let r := callSupabase cfg env "users" "PATCH"
          (some (jobj [("ticket", .num rw), ("join_status", .str "claimed")]))
          ("id=eq." ++ jsToString userId ++ "&join_status=eq.check")
        match r.1 with
        | .error e => (.error e, r.2)
        | .ok updatedUserTask =>
          if jsFalsy updatedUserTask then
            (.error "Claim failed. Task not ready or already claimed.", r.2)
          else
            (.ok (jobj [("message",
              .str ("Reward of " ++ toString rw ++ " tickets claimed for " ++
                jsToString (getField body "task") ++ "."))]), r.2)
      | _ => (.error "Invalid task or reward data.", [])
    else (.error "Invalid task or reward data.", [])
  else if action = .str "watchAd" then
    match getField body "reward" with
    | .num rw =>
      let r := callSupabase cfg env "users" "PATCH"
        (some (jobj [("ticket", .num rw), ("ads_left", .num (-1))]))
        ("id=eq." ++ jsToString userId ++ "&ads_left=gt.0")
      match r.1 with
      | .error e => (.error e, r.2)
      | .ok updatedUserAd =>
        if jsFalsy updatedUserAd then
          (.error "Ad claim failed. No ads left to watch.", r.2)
        else
          (.ok (jobj [("message",
            .str ("Ad watched. " ++ toString rw ++ " ticket added."))]), r.2)
    | _ => (.error "Invalid ad reward value.", [])
  else if action = .str "executeSwap" then
    if isNumber (getField body "points") then
      match getField body "newPoints" with
      | .num np =>
        if jsFalsy (getField body "newUsdt") then (.error "Invalid swap data.", [])
        else
          let r := callSupabase cfg env "users" "PATCH"
            (some (jobj [("points", .num np), ("usdt", getField body "newUsdt")]))
            ("id=eq." ++ jsToString userId)
          match r.1 with
          | .error e => (.error e, r.2)
          | .ok _ =>
            (.ok (jobj [("message", .str "Swap successful"),
                        ("newPoints", .num np),
                        ("newUsdt", getField body "newUsdt")]), r.2)
      | _ => (.error "Invalid swap data.", [])
    else (.error "Invalid swap data.", [])
  else if action = .str "spin" then
    (.ok (jobj [("message",
      .str "Spin executed successfully, checking for reward...")]), [])
  else if action = .str "ref" then
    (.ok (jobj [("message", .str "Referral menu data prepared.")]), [])
  else
    (.error ("Unknown action: " ++ jsToString action), [])

/-- Success envelope spread of this revision (same as the later one). -/
def mkEnvelope (action responseData : JsonVal) : JsonVal :=
  match responseData with
  | .obj fields => .obj (.fcons "ok" (.bool true) (.fcons "action" action fields))
  | _ => .obj (.fcons "ok" (.bool true) (.fcons "action" action .nil))

/-- Body of the try block for a POST request in this revision. -/
def handlePost (cfg : Config) (env : Env) (bodyIn : BodyInput) :
    HttpResponse × List SupabaseRequest :=
  match getBody bodyIn with
  | .error msg => (errResponse msg, [])
  | .ok body =>
    if body = .null then (errResponse nullDestructureMsg, [])
    else
      if jsFalsy (getField body "userId") || jsFalsy (getField body "action") then
        (errResponse missingParamsMsg, [])
      else
        let auditCalls := logAction cfg env (getField body "userId")
          (getField body "action") body
        match runAction cfg env (getField body "userId")
          (getField body "action") body with
        | (.ok responseData, calls) =>
          (⟨200, true, some (mkEnvelope (getField body "action") responseData)⟩,
           auditCalls ++ calls)
        | (.error msg, calls) => (errResponse msg, auditCalls ++ calls)

/-- The exported request handler of this revision. -/
def handler (cfg : Config) (env : Env) (method : String) (bodyIn : BodyInput) :
    HttpResponse × List SupabaseRequest :=
  if method = "OPTIONS" then (⟨204, true, none⟩, [])
  else if method = "POST" then handlePost cfg env bodyIn
  else
    (⟨405, true, some (jobj [("ok", .bool false),
      ("error", .str "Method Not Allowed. Only POST is supported.")])⟩, [])

end Part000

/-! ## Concrete fixtures used by closed theorems and witnesses -/

/-- A fully configured process environment. -/
def cfgA : Config := ⟨some "https://db.example", some "anon-key"⟩

/-- An external world in which every query against the `users` table matches
zero rows (the service answers 200 with the empty row-set `[]`), and every
other request succeeds with no content. -/
def envUsersEmpty : Env :=
  fun r => if r.table = "users" then .okJson (jarr []) else .ok204

/-- A balance request for an account that does not exist. -/
def bodyBal : JsonVal :=
  jobj [("userId", .str "u1"), ("action", .str "getBalanceAndTaskStatus")]

/-- A `watchAd` request with a numeric reward. -/
def bodyAd : JsonVal :=
  jobj [("userId", .num 7), ("action", .str "watchAd"), ("reward", .num 5)]

/-- A request naming an action outside the dispatch table. -/
def bodyUnk : JsonVal := jobj [("userId", .num 1), ("action", .str "wat")]

/-- A valid JSON object body with no `userId` field. -/
def bodyNoUser : JsonVal := jobj [("action", .str "spin")]

/-- A body whose `userId` is present but falsy (the number 0). -/
def bodyZeroUser : JsonVal :=
  jobj [("userId", .num 0), ("action", .str "getBalanceAndTaskStatus")]

/-- World where audit-log inserts fail at the network level and `users`
queries return the empty row-set. -/
def envAuditFails : Env :=
  fun r => if r.table = "actions_log" then .netError "socket hang up"
           else .okJson (jarr [])

/-- World where audit-log inserts succeed and `users` queries return the
empty row-set; agrees with `envAuditFails` away from the audit table. -/
def envAuditOk : Env :=
  fun r => if r.table = "actions_log" then .ok204 else .okJson (jarr [])

/-! ## Helper lemmas -/

/-- A value that is not a one-element array is left unchanged by the
gateway's row normalization. -/
theorem normalizeRows_eq_self (v : JsonVal) (h : isSingletonArr v = false) :
    normalizeRows v = v := by
  cases v with
  | arr xs =>
    cases xs with
    | nil => rfl
    | cons x tl =>
      cases tl with
      | nil => simp [isSingletonArr] at h
      | cons y tl2 => rfl
  | null => rfl
  | undefined => rfl
  | bool b => rfl
  | num n => rfl
  | str s => rfl
  | obj f => rfl

/-! ## Claim theorems -/

/-- C4: for every successful gateway response, a 204 no-content response
yields the success marker `{success:true, data:null}`; a JSON body that is a
one-element array is unwrapped to that element; every other parsed body
(empty or multi-element array, or non-array) is returned unmodified — in
both revisions of `callSupabase`. -/
theorem c4_gateway_response_normalization :
    (ApiIndex.responseResult .ok204 =
      .ok (jobj [("success", .bool true), ("data", .null)])) ∧
    (∀ x, ApiIndex.responseResult (.okJson (.arr (.cons x .nil))) = .ok x) ∧
    (∀ v, isSingletonArr v = false →
      ApiIndex.responseResult (.okJson v) = .ok v) ∧
    (Part000.responseResult .ok204 =
      .ok (jobj [("success", .bool true), ("data", .null)])) ∧
    (∀ x, Part000.responseResult (.okJson (.cons x .nil |> .arr)) = .ok x) ∧
    (∀ v, isSingletonArr v = false →
      Part000.responseResult (.okJson v) = .ok v) := by
  refine ⟨rfl, fun x => rfl, fun v h => ?_, rfl, fun x => rfl, fun v h => ?_⟩
  · show Except.ok (normalizeRows v) = Except.ok v
    rw [normalizeRows_eq_self v h]
  · show Except.ok (normalizeRows v) = Except.ok v
    rw [normalizeRows_eq_self v h]

/-- Witness for C4: the empty row-set and a non-array body pass through the
normalization unmodified. -/
theorem c4_gateway_response_normalization_witness :
    ApiIndex.responseResult (.okJson (jarr [])) = .ok (jarr []) ∧
    Part000.responseResult (.okJson (.num 3)) = .ok (.num 3) :=
  ⟨c4_gateway_response_normalization.2.2.1 (jarr []) rfl,
   c4_gateway_response_normalization.2.2.2.2.2 (.num 3) rfl⟩

/-- C6: characterization of the `Prefer` header. The claim holds of the
`src/api/index.js` revision (else-if chain): `return=minimal` exactly for a
POST to the audit-log table, `return=representation` for every other POST
or PATCH, and no header on GET. It fails on the `src/unnamed/part_000`
revision: there the two header assignments are independent `if`s, so the
second (`PATCH || POST`) overwrites the minimal preference and the
audit-log insert is sent with `return=representation` — contradicting the
comment directly above it in the source. -/
theorem c6_prefer_header_rule :
    Part000.preferHeader "actions_log" "POST" = some "return=representation" ∧
    (∀ t m, ApiIndex.preferHeader t m = some "return=minimal" ↔
      m = "POST" ∧ t = "actions_log") ∧
    (∀ t m, ApiIndex.preferHeader t m = some "return=representation" ↔
      (m = "PATCH" ∨ m = "POST") ∧ ¬(m = "POST" ∧ t = "actions_log")) ∧
    (∀ t, ApiIndex.preferHeader t "GET" = none) ∧
    (∀ t m, m = "PATCH" ∨ m = "POST" →
      Part000.preferHeader t m = some "return=representation") := by
  refine ⟨rfl, fun t m => ?_, fun t m => ?_, fun t => rfl, fun t m h => ?_⟩
  · unfold ApiIndex.preferHeader
    split_ifs with h1 h2
    · simp [h1]
    · simp only [Option.some.injEq]
      constructor
      · intro hs
        exact absurd hs (by decide)
      · intro hc
        exact absurd hc h1
    · constructor
      · intro hs
        exact absurd hs (by simp)
      · intro hc
        exact absurd hc h1
  · unfold ApiIndex.preferHeader
    split_ifs with h1 h2
    · constructor
      · intro hs
        exact absurd hs (by decide)
      · intro hc
        exact absurd h1 hc.2
    · simp [h2, h1]
    · constructor
      · intro hs
        exact absurd hs (by simp)
      · intro hc
        exact absurd hc.1 h2
  · unfold Part000.preferHeader
    rw [if_pos h]

/-- Witness for C6's hypothesis-bearing conjunct: a PATCH in the earlier
revision carries `return=representation`. -/
theorem c6_prefer_header_rule_witness :
    Part000.preferHeader "users" "PATCH" = some "return=representation" :=
  c6_prefer_header_rule.2.2.2.2 "users" "PATCH" (Or.inl rfl)

/-- C7: the claim that every gateway call made with a missing secret fails
fast before any outbound request holds only of the `src/api/index.js`
revision, proved here; the earlier revision performs no configuration check
(see the counterexample). -/
theorem c7_failfast_when_unconfigured
    (cfg : Config) (env : Env) (table method : String)
    (body : Option JsonVal) (filter : String)
    (h : (envFalsy cfg.supabaseUrl || envFalsy cfg.supabaseAnonKey) = true) :
    ApiIndex.callSupabase cfg env table method body filter =
      (.error "Supabase credentials are not configured.", []) := by
  unfold ApiIndex.callSupabase
  rw [if_pos h]

/-- Witness for C7: with the URL secret unset, the later revision's gateway
reports the configuration error and issues no request. -/
theorem c7_failfast_when_unconfigured_witness :
    ApiIndex.callSupabase ⟨none, some "anon-key"⟩ envUsersEmpty "users" "GET"
      none "id=eq.1" = (.error "Supabase credentials are not configured.", []) :=
  c7_failfast_when_unconfigured ⟨none, some "anon-key"⟩ envUsersEmpty "users"
    "GET" none "id=eq.1" rfl

/-- Counterexample for C7: the `part_000` revision never checks the secrets;
with both unset it still issues the outbound request (to an address
containing the literal "undefined") and reports no configuration error. -/
theorem c7_counterexample_part000_calls_without_config :
    Part000.callSupabase ⟨none, none⟩ envUsersEmpty "users" "GET" none
      "id=eq.1" =
      (.ok (jarr []),
       [⟨"undefined/rest/v1/users?id=eq.1", "users", "GET", none, none,
         "id=eq.1"⟩]) := rfl

/-- C9: the method gate of both revisions is exhaustive — OPTIONS yields 204
with an empty body and the CORS headers set, any other non-POST method
yields 405, and in both cases no gateway request (audit write included) is
issued; the response is the same whatever the request body holds, so the
body is never read. -/
theorem c9_method_gate (cfg : Config) (env : Env) (bodyIn : BodyInput)
    (method : String) (h1 : method ≠ "OPTIONS") (h2 : method ≠ "POST") :
    ApiIndex.handler cfg env "OPTIONS" bodyIn = (⟨204, true, none⟩, []) ∧
    Part000.handler cfg env "OPTIONS" bodyIn = (⟨204, true, none⟩, []) ∧
    ApiIndex.handler cfg env method bodyIn =
      (⟨405, true, some (jobj [("ok", .bool false),
        ("error", .str "Method Not Allowed. Only POST is supported.")])⟩, []) ∧
    Part000.handler cfg env method bodyIn =
      (⟨405, true, some (jobj [("ok", .bool false),
        ("error", .str "Method Not Allowed. Only POST is supported.")])⟩, []) := by
  refine ⟨rfl, rfl, ?_, ?_⟩
  · unfold ApiIndex.handler
    rw [if_neg h1, if_neg h2]
  · unfold Part000.handler
    rw [if_neg h1, if_neg h2]

/-- Witness for C9: a GET request is answered 405 by both revisions. -/
theorem c9_method_gate_witness :
    ApiIndex.handler cfgA envUsersEmpty "GET" .empty =
      (⟨405, true, some (jobj [("ok", .bool false),
        ("error", .str "Method Not Allowed. Only POST is supported.")])⟩, []) ∧
    Part000.handler cfgA envUsersEmpty "GET" .empty =
      (⟨405, true, some (jobj [("ok", .bool false),
        ("error", .str "Method Not Allowed. Only POST is supported.")])⟩, []) :=
  ⟨(c9_method_gate cfgA envUsersEmpty .empty "GET" (by decide) (by decide)).2.2.1,
   (c9_method_gate cfgA envUsersEmpty .empty "GET" (by decide) (by decide)).2.2.2⟩

/-- C1: refuted on the code. When the gateway returns the empty row-set `[]`
for the balance query (userId matching no account row), `callSupabase`
passes `[]` through unmodified and the handler's `if (!userData)` guard
does not fire, because an empty array is truthy in JS. Both revisions
respond 200 with `ok:true` for the non-existent account — the `part_000`
revision even fabricates `joinTaskStatus:"join"` and `adsLeft:300` via its
`||` defaults. The account-not-found error in the source is unreachable on
this path, contradicting its own evident intent, so this is a code bug
rather than a spec error. -/
theorem c1_balance_empty_rowset_replies_ok_true :
    (ApiIndex.handler cfgA envUsersEmpty "POST" (.parsed bodyBal)).1.status = 200 ∧
    ((ApiIndex.handler cfgA envUsersEmpty "POST" (.parsed bodyBal)).1.body.map
      (fun v => getField v "ok")) = some (.bool true) ∧
    (Part000.handler cfgA envUsersEmpty "POST" (.parsed bodyBal)).1.status = 200 ∧
    ((Part000.handler cfgA envUsersEmpty "POST" (.parsed bodyBal)).1.body.map
      (fun v => getField v "ok")) = some (.bool true) ∧
    ((Part000.handler cfgA envUsersEmpty "POST" (.parsed bodyBal)).1.body.map
      (fun v => getField v "adsLeft")) = some (.num 300) ∧
    ((Part000.handler cfgA envUsersEmpty "POST" (.parsed bodyBal)).1.body.map
      (fun v => getField v "joinTaskStatus")) = some (.str "join") :=
  ⟨rfl, rfl, rfl, rfl, rfl, rfl⟩

/-- C2: refuted on the code. For `watchAd` with `reward:5` against an
account whose `ads_left` is 0: in `part_000` the PATCH goes out with filter
`ads_left=gt.0`, the service matches zero rows and answers with the empty
row-set `[]`, which is truthy, so `if (!updatedUserAd)` never fires and the
revision replies 200 `ok:true` "Ad watched. 5 ticket added." (the account
is indeed unchanged — zero rows matched). The `api/index.js` revision makes
no `users` call at all and also replies `ok:true`. The "no ads left" error
in the source is unreachable on this path, so this is a code bug. -/
theorem c2_watchAd_no_ads_replies_ok_true :
    (Part000.handler cfgA envUsersEmpty "POST" (.parsed bodyAd)).1.status = 200 ∧
    ((Part000.handler cfgA envUsersEmpty "POST" (.parsed bodyAd)).1.body.map
      (fun v => getField v "ok")) = some (.bool true) ∧
    ((Part000.handler cfgA envUsersEmpty "POST" (.parsed bodyAd)).1.body.map
      (fun v => getField v "message")) =
        some (.str "Ad watched. 5 ticket added.") ∧
    ((Part000.handler cfgA envUsersEmpty "POST" (.parsed bodyAd)).2.map
      (fun r => r.filter)) = ["", "id=eq.7&ads_left=gt.0"] ∧
    (ApiIndex.handler cfgA envUsersEmpty "POST" (.parsed bodyAd)).1.status = 200 ∧
    ((ApiIndex.handler cfgA envUsersEmpty "POST" (.parsed bodyAd)).1.body.map
      (fun v => getField v "ok")) = some (.bool true) ∧
    ((ApiIndex.handler cfgA envUsersEmpty "POST" (.parsed bodyAd)).2.map
      (fun r => r.table)) = ["actions_log"] :=
  ⟨rfl, rfl, rfl, rfl, rfl, rfl, rfl⟩

/-- Counterexample for C3: the JSON body `null` parses as JSON and lacks
both `userId` and `action`, yet the response is the destructuring TypeError
with status 500, not the missing-parameters message with a 4xx status. -/
theorem c3_counterexample_null_body :
    ApiIndex.handler cfgA envUsersEmpty "POST" (.parsed .null) =
      (⟨500, true, some (jobj [("ok", .bool false),
        ("error", .str nullDestructureMsg)])⟩, []) := by decide

/-- C3 (amended): for every POST body parsing to a JSON value other than
`null` in which reading `userId` or `action` yields `undefined`, both
revisions answer `ok:false` with the missing-parameters message — status
400 in the `api/index.js` revision, 500 in the earlier one — and issue no
gateway call; moreover the later revision's status rule is exactly "400
when the error text contains "JSON" or "Missing", else 500", while the
earlier revision's error handler always writes 500. (The JSON `null` body
is the one exception forced by the counterexample: destructuring it throws
a TypeError, answered 500.) -/
theorem c3_missing_required_params (cfg : Config) (env : Env) (body : JsonVal)
    (hn : body ≠ .null)
    (h : getField body "userId" = .undefined ∨ getField body "action" = .undefined) :
    ApiIndex.handler cfg env "POST" (.parsed body) =
      (⟨400, true, some (jobj [("ok", .bool false),
        ("error", .str missingParamsMsg)])⟩, []) ∧
    Part000.handler cfg env "POST" (.parsed body) =
      (⟨500, true, some (jobj [("ok", .bool false),
        ("error", .str missingParamsMsg)])⟩, []) ∧
    (∀ msg, ApiIndex.errorStatus msg = 400 ↔
      (containsSub msg "JSON" || containsSub msg "Missing") = true) ∧
    (∀ msg, (Part000.errResponse msg).status = 500) := by
  have hcond : (jsFalsy (getField body "userId") ||
      jsFalsy (getField body "action")) = true := by
    rcases h with h | h <;> simp [h, jsFalsy]
  refine ⟨?_, ?_, ?_, fun msg => rfl⟩
  · unfold ApiIndex.handler
    rw [if_neg (by decide : ¬("POST" = "OPTIONS")), if_pos rfl]
    simp only [ApiIndex.handlePost, ApiIndex.getBody]
    rw [if_neg hn, if_pos hcond]
    decide
  · unfold Part000.handler
    rw [if_neg (by decide : ¬("POST" = "OPTIONS")), if_pos rfl]
    simp only [Part000.handlePost, Part000.getBody]
    rw [if_neg hn, if_pos hcond]
    decide
  · intro msg
    unfold ApiIndex.errorStatus
    split_ifs with hc
    · simp [hc]
    · simp [hc]

/-- Witness for C3: a JSON object body with no `userId` gets the
missing-parameters error, 400 from the later revision, 500 from the
earlier one. -/
theorem c3_missing_required_params_witness :
    ApiIndex.handler cfgA envUsersEmpty "POST" (.parsed bodyNoUser) =
      (⟨400, true, some (jobj [("ok", .bool false),
        ("error", .str missingParamsMsg)])⟩, []) ∧
    Part000.handler cfgA envUsersEmpty "POST" (.parsed bodyNoUser) =
      (⟨500, true, some (jobj [("ok", .bool false),
        ("error", .str missingParamsMsg)])⟩, []) :=
  ⟨(c3_missing_required_params cfgA envUsersEmpty bodyNoUser (by decide)
      (Or.inl rfl)).1,
   (c3_missing_required_params cfgA envUsersEmpty bodyNoUser (by decide)
      (Or.inl rfl)).2.1⟩

/-- C10: a `userId` or `action` that is present but falsy (0, empty string,
`false`, `null`) is rejected with the very same missing-parameters response
as an absent field, in both revisions, because the guard tests JS
truthiness (`!userId || !action`) rather than presence. -/
theorem c10_falsy_params_rejected (cfg : Config) (env : Env) (body : JsonVal)
    (hn : body ≠ .null)
    (h : (jsFalsy (getField body "userId") ||
      jsFalsy (getField body "action")) = true) :
    ApiIndex.handler cfg env "POST" (.parsed body) =
      (⟨400, true, some (jobj [("ok", .bool false),
        ("error", .str missingParamsMsg)])⟩, []) ∧
    Part000.handler cfg env "POST" (.parsed body) =
      (⟨500, true, some (jobj [("ok", .bool false),
        ("error", .str missingParamsMsg)])⟩, []) := by
  constructor
  · unfold ApiIndex.handler
    rw [if_neg (by decide : ¬("POST" = "OPTIONS")), if_pos rfl]
    simp only [ApiIndex.handlePost, ApiIndex.getBody]
    rw [if_neg hn, if_pos h]
    decide
  · unfold Part000.handler
    rw [if_neg (by decide : ¬("POST" = "OPTIONS")), if_pos rfl]
    simp only [Part000.handlePost, Part000.getBody]
    rw [if_neg hn, if_pos h]
    decide

/-- Witness for C10: `userId: 0` (present, of the admissible number type,
but falsy) is rejected exactly like a missing `userId`. -/
theorem c10_falsy_params_rejected_witness :
    ApiIndex.handler cfgA envUsersEmpty "POST" (.parsed bodyZeroUser) =
      (⟨400, true, some (jobj [("ok", .bool false),
        ("error", .str missingParamsMsg)])⟩, []) ∧
    Part000.handler cfgA envUsersEmpty "POST" (.parsed bodyZeroUser) =
      (⟨500, true, some (jobj [("ok", .bool false),
        ("error", .str missingParamsMsg)])⟩, []) :=
  c10_falsy_params_rejected cfgA envUsersEmpty bodyZeroUser (by decide) (by decide)

/-- Dispatcher reduction for `api/index.js`: a POST whose parsed body is not
`null` and has truthy `userId` and `action` fires the audit write and then
dispatches on the action. -/
theorem ApiIndex.handlePost_run (cfg : Config) (env : Env) (body : JsonVal)
    (hn : body ≠ .null)
    (hu : jsFalsy (getField body "userId") = false)
    (ha : jsFalsy (getField body "action") = false) :
    ApiIndex.handler cfg env "POST" (.parsed body) =
      (match ApiIndex.runAction cfg env (getField body "userId")
          (getField body "action") body with
       | (.ok d, calls) =>
         (⟨200, true, some (ApiIndex.mkEnvelope (getField body "action") d)⟩,
          ApiIndex.logAction cfg env (getField body "userId")
            (getField body "action") body ++ calls)
       | (.error m, calls) =>
         (ApiIndex.errResponse m,
          ApiIndex.logAction cfg env (getField body "userId")
            (getField body "action") body ++ calls)) := by
  unfold handler
  rw [if_neg (by decide : ¬("POST" = "OPTIONS")), if_pos rfl]
  simp only [handlePost, getBody]
  rw [if_neg hn, if_neg (by simp [hu, ha])]

/-- Error form of `ApiIndex.handlePost_run`. -/
theorem ApiIndex.handlePost_err (cfg : Config) (env : Env) (body : JsonVal)
    (hn : body ≠ .null)
    (hu : jsFalsy (getField body "userId") = false)
    (ha : jsFalsy (getField body "action") = false)
    (msg : String) (calls : List SupabaseRequest)
    (hr : ApiIndex.runAction cfg env (getField body "userId")
      (getField body "action") body = (.error msg, calls)) :
    ApiIndex.handler cfg env "POST" (.parsed body) =
      (ApiIndex.errResponse msg,
       ApiIndex.logAction cfg env (getField body "userId")
         (getField body "action") body ++ calls) := by
  rw [ApiIndex.handlePost_run cfg env body hn hu ha, hr]

/-- Dispatcher reduction for `part_000` (same shape). -/
theorem Part000.handlePost_run_p0 (cfg : Config) (env : Env) (body : JsonVal)
    (hn : body ≠ .null)
    (hu : jsFalsy (getField body "userId") = false)
    (ha : jsFalsy (getField body "action") = false) :
    Part000.handler cfg env "POST" (.parsed body) =
      (match Part000.runAction cfg env (getField body "userId")
          (getField body "action") body with
       | (.ok d, calls) =>
         (⟨200, true, some (Part000.mkEnvelope (getField body "action") d)⟩,
          Part000.logAction cfg env (getField body "userId")
            (getField body "action") body ++ calls)
       | (.error m, calls) =>
         (Part000.errResponse m,
          Part000.logAction cfg env (getField body "userId")
            (getField body "action") body ++ calls)) := by
  unfold handler
  rw [if_neg (by decide : ¬("POST" = "OPTIONS")), if_pos rfl]
  simp only [handlePost, getBody]
  rw [if_neg hn, if_neg (by simp [hu, ha])]

/-- Error form of `Part000.handlePost_run_p0`. -/
theorem Part000.handlePost_err_p0 (cfg : Config) (env : Env) (body : JsonVal)
    (hn : body ≠ .null)
    (hu : jsFalsy (getField body "userId") = false)
    (ha : jsFalsy (getField body "action") = false)
    (msg : String) (calls : List SupabaseRequest)
    (hr : Part000.runAction cfg env (getField body "userId")
      (getField body "action") body = (.error msg, calls)) :
    Part000.handler cfg env "POST" (.parsed body) =
      (Part000.errResponse msg,
       Part000.logAction cfg env (getField body "userId")
         (getField body "action") body ++ calls) := by
  rw [Part000.handlePost_run_p0 cfg env body hn hu ha, hr]

/-- An action outside the dispatch table falls to the default branch of the
later revision's switch without touching the gateway. -/
theorem ApiIndex.runAction_unknown (cfg : Config) (env : Env)
    (userId action body : JsonVal) (hk : ¬ actionKnown action) :
    ApiIndex.runAction cfg env userId action body =
      (.error ("Unknown action: " ++ jsToString action), []) := by
  simp only [actionKnown, not_or] at hk
  obtain ⟨k1, k2, k3, k4, k5, k6, k7⟩ := hk
  unfold runAction
  rw [if_neg k1, if_neg k2, if_neg k3, if_neg k4, if_neg k5, if_neg k6,
    if_neg k7]

/-- Same for the earlier revision. -/
theorem Part000.runAction_unknown_p0 (cfg : Config) (env : Env)
    (userId action body : JsonVal) (hk : ¬ actionKnown action) :
    Part000.runAction cfg env userId action body =
      (.error ("Unknown action: " ++ jsToString action), []) := by
  simp only [actionKnown, not_or] at hk
  obtain ⟨k1, k2, k3, k4, k5, k6, k7⟩ := hk
  unfold runAction
  rw [if_neg k1, if_neg k2, if_neg k3, if_neg k4, if_neg k5, if_neg k6,
    if_neg k7]

/-- An `addPoints` whose `points` is not a non-negative number fails in the
later revision before any gateway call. -/
theorem ApiIndex.runAction_addPoints_invalid (cfg : Config) (env : Env)
    (userId body : JsonVal) (hp : validPoints (getField body "points") = false) :
    ApiIndex.runAction cfg env userId (.str "addPoints") body =
      (.error "Invalid points value.", []) := by
  have h0 : ApiIndex.runAction cfg env userId (.str "addPoints") body =
      (match getField body "points" with
       | .num n =>
         if n < 0 then (.error "Invalid points value.", [])
         else
           (.ok (jobj [("message",
             .str ("Requested addition of " ++ toString n ++ " points."))]), [])
       | _ => (.error "Invalid points value.", [])) := rfl
  rw [h0]
  cases hgp : getField body "points" with
  | num n =>
    rw [hgp] at hp
    simp only [validPoints, decide_eq_false_iff_not] at hp
    simp [show n < 0 by omega]
  | null => rfl
  | undefined => rfl
  | bool b => rfl
  | str s => rfl
  | arr xs => rfl
  | obj f => rfl

/-- Same for the earlier revision (whose `addPoints` would otherwise go on
to PATCH the `users` table). -/
theorem Part000.runAction_addPoints_invalid_p0 (cfg : Config) (env : Env)
    (userId body : JsonVal) (hp : validPoints (getField body "points") = false) :
    Part000.runAction cfg env userId (.str "addPoints") body =
      (.error "Invalid points value.", []) := by
  have h0 : Part000.runAction cfg env userId (.str "addPoints") body =
      (match getField body "points" with
       | .num n =>
         if n < 0 then (.error "Invalid points value.", [])
         else
           let r := Part000.callSupabase cfg env "users" "PATCH"
             (some (jobj [("points", .num n)])) ("id=eq." ++ jsToString userId)
           match r.1 with
           | .error e => (.error e, r.2)
           | .ok _ =>
             (.ok (jobj [("message",
               .str ("Successfully added " ++ toString n ++ " points."))]), r.2)
       | _ => (.error "Invalid points value.", [])) := rfl
  rw [h0]
  cases hgp : getField body "points" with
  | num n =>
    rw [hgp] at hp
    simp only [validPoints, decide_eq_false_iff_not] at hp
    simp [show n < 0 by omega]
  | null => rfl
  | undefined => rfl
  | bool b => rfl
  | str s => rfl
  | arr xs => rfl
  | obj f => rfl

/-- A `claimTaskReward` whose data fails the guard (`task` not the fixed
literal, or non-numeric `reward`) fails in the later revision before any
gateway call. -/
theorem ApiIndex.runAction_claim_invalid (cfg : Config) (env : Env)
    (userId body : JsonVal)
    (hv : ¬(getField body "task" = .str "joinChannel" ∧
      isNumber (getField body "reward") = true)) :
    ApiIndex.runAction cfg env userId (.str "claimTaskReward") body =
      (.error "Invalid task data.", []) := by
  have h0 : ApiIndex.runAction cfg env userId (.str "claimTaskReward") body =
      (if getField body "task" = .str "joinChannel" then
        match getField body "reward" with
        | .num r =>
          (.ok (jobj [("message",
            .str ("Requested claim for " ++ toString r ++ " tickets for " ++
              jsToString (getField body "task") ++ "."))]), [])
        | _ => (.error "Invalid task data.", [])
      else (.error "Invalid task data.", [])) := rfl
  rw [h0]
  by_cases ht : getField body "task" = .str "joinChannel"
  · rw [if_pos ht]
    cases hgr : getField body "reward" with
    | num r => exact absurd ⟨ht, by rw [hgr]; rfl⟩ hv
    | null => rfl
    | undefined => rfl
    | bool b => rfl
    | str s => rfl
    | arr xs => rfl
    | obj f => rfl
  · rw [if_neg ht]

/-- A `watchAd` with a non-numeric `reward` fails in the later revision
before any gateway call. -/
theorem ApiIndex.runAction_watchAd_invalid (cfg : Config) (env : Env)
    (userId body : JsonVal) (hw : isNumber (getField body "reward") = false) :
    ApiIndex.runAction cfg env userId (.str "watchAd") body =
      (.error "Invalid ad reward.", []) := by
  have h0 : ApiIndex.runAction cfg env userId (.str "watchAd") body =
      (match getField body "reward" with
       | .num r =>
         (.ok (jobj [("message",
           .str ("Requested ad watch and " ++ toString r ++
             " ticket addition."))]), [])
       | _ => (.error "Invalid ad reward.", [])) := rfl
  rw [h0]
  cases hgr : getField body "reward" with
  | num r => rw [hgr] at hw; exact absurd hw (by simp [isNumber])
  | null => rfl
  | undefined => rfl
  | bool b => rfl
  | str s => rfl
  | arr xs => rfl
  | obj f => rfl

/-- Same for the earlier revision (different message, and its `watchAd`
would otherwise go on to PATCH the `users` table). -/
theorem Part000.runAction_watchAd_invalid_p0 (cfg : Config) (env : Env)
    (userId body : JsonVal) (hw : isNumber (getField body "reward") = false) :
    Part000.runAction cfg env userId (.str "watchAd") body =
      (.error "Invalid ad reward value.", []) := by
  have h0 : Part000.runAction cfg env userId (.str "watchAd") body =
      (match getField body "reward" with
       | .num rw' =>
         let r := Part000.callSupabase cfg env "users" "PATCH"
           (some (jobj [("ticket", .num rw'), ("ads_left", .num (-1))]))
           ("id=eq." ++ jsToString userId ++ "&ads_left=gt.0")
         match r.1 with
         | .error e => (.error e, r.2)
         | .ok updatedUserAd =>
           if jsFalsy updatedUserAd then
             (.error "Ad claim failed. No ads left to watch.", r.2)
           else
             (.ok (jobj [("message",
               .str ("Ad watched. " ++ toString rw' ++ " ticket added."))]), r.2)
       | _ => (.error "Invalid ad reward value.", [])) := rfl
  rw [h0]
  cases hgr : getField body "reward" with
  | num r => rw [hgr] at hw; exact absurd hw (by simp [isNumber])
  | null => rfl
  | undefined => rfl
  | bool b => rfl
  | str s => rfl
  | arr xs => rfl
  | obj f => rfl

/-- An `executeSwap` whose data fails the guard (non-numeric `newPoints`,
or falsy `newUsdt`) fails in the later revision before any gateway call. -/
theorem ApiIndex.runAction_swap_invalid (cfg : Config) (env : Env)
    (userId body : JsonVal)
    (hs : ¬(isNumber (getField body "newPoints") = true ∧
      jsTruthy (getField body "newUsdt") = true)) :
    ApiIndex.runAction cfg env userId (.str "executeSwap") body =
      (.error "Invalid swap data.", []) := by
  have h0 : ApiIndex.runAction cfg env userId (.str "executeSwap") body =
      (match getField body "newPoints" with
       | .num np =>
         if jsFalsy (getField body "newUsdt") then
           (.error "Invalid swap data.", [])
         else
           (.ok (jobj [("message", .str "Swap request sent for processing."),
                       ("newPoints", .num np),
                       ("newUsdt", getField body "newUsdt")]), [])
       | _ => (.error "Invalid swap data.", [])) := rfl
  rw [h0]
  cases hgp : getField body "newPoints" with
  | num np =>
    cases hfal : jsFalsy (getField body "newUsdt") with
    | true => simp [hfal]
    | false => exact absurd ⟨by rw [hgp]; rfl, by simp [jsTruthy, hfal]⟩ hs
  | null => rfl
  | undefined => rfl
  | bool b => rfl
  | str s => rfl
  | arr xs => rfl
  | obj f => rfl

/-- A `claimTaskReward` whose data fails the guard fails in the earlier
revision before its conditional PATCH against `users` is issued. -/
theorem Part000.runAction_claim_invalid_p0 (cfg : Config) (env : Env)
    (userId body : JsonVal)
    (hv : ¬(getField body "task" = .str "joinChannel" ∧
      isNumber (getField body "reward") = true)) :
    Part000.runAction cfg env userId (.str "claimTaskReward") body =
      (.error "Invalid task or reward data.", []) := by
  have h0 : Part000.runAction cfg env userId (.str "claimTaskReward") body =
      (if getField body "task" = .str "joinChannel" then
        match getField body "reward" with
        | .num rw' =>
          let r := Part000.callSupabase cfg env "users" "PATCH"
            (some (jobj [("ticket", .num rw'), ("join_status", .str "claimed")]))
            ("id=eq." ++ jsToString userId ++ "&join_status=eq.check")
          match r.1 with
          | .error e => (.error e, r.2)
          | .ok updatedUserTask =>
            if jsFalsy updatedUserTask then
              (.error "Claim failed. Task not ready or already claimed.", r.2)
            else
              (.ok (jobj [("message",
                .str ("Reward of " ++ toString rw' ++ " tickets claimed for " ++
                  jsToString (getField body "task") ++ "."))]), r.2)
        | _ => (.error "Invalid task or reward data.", [])
      else (.error "Invalid task or reward data.", [])) := rfl
  rw [h0]
  by_cases ht : getField body "task" = .str "joinChannel"
  · rw [if_pos ht]
    cases hgr : getField body "reward" with
    | num r => exact absurd ⟨ht, by rw [hgr]; rfl⟩ hv
    | null => rfl
    | undefined => rfl
    | bool b => rfl
    | str s => rfl
    | arr xs => rfl
    | obj f => rfl
  · rw [if_neg ht]

/-- An `executeSwap` whose data fails the earlier revision's guard (it also
requires a numeric `points` to swap) fails before its PATCH against `users`
is issued. -/
theorem Part000.runAction_swap_invalid_p0 (cfg : Config) (env : Env)
    (userId body : JsonVal)
    (hs : ¬(isNumber (getField body "points") = true ∧
      isNumber (getField body "newPoints") = true ∧
      jsTruthy (getField body "newUsdt") = true)) :
    Part000.runAction cfg env userId (.str "executeSwap") body =
      (.error "Invalid swap data.", []) := by
  have h0 : Part000.runAction cfg env userId (.str "executeSwap") body =
      (if isNumber (getField body "points") then
        match getField body "newPoints" with
        | .num np =>
          if jsFalsy (getField body "newUsdt") then
            (.error "Invalid swap data.", [])
          else
            let r := Part000.callSupabase cfg env "users" "PATCH"
              (some (jobj [("points", .num np), ("usdt", getField body "newUsdt")]))
              ("id=eq." ++ jsToString userId)
            match r.1 with
            | .error e => (.error e, r.2)
            | .ok _ =>
              (.ok (jobj [("message", .str "Swap successful"),
                          ("newPoints", .num np),
                          ("newUsdt", getField body "newUsdt")]), r.2)
        | _ => (.error "Invalid swap data.", [])
      else (.error "Invalid swap data.", [])) := rfl
  rw [h0]
  cases hip : isNumber (getField body "points") with
  | false => simp [hip]
  | true =>
    rw [if_pos rfl]
    cases hgp : getField body "newPoints" with
    | num np =>
      cases hfal : jsFalsy (getField body "newUsdt") with
      | true => simp [hfal]
      | false =>
        exact absurd ⟨hip, by rw [hgp]; rfl, by simp [jsTruthy, hfal]⟩ hs
    | null => rfl
    | undefined => rfl
    | bool b => rfl
    | str s => rfl
    | arr xs => rfl
    | obj f => rfl

/-- C5 (amended): for a request with truthy `userId` and `action`, when the
action is unrecognized or its data fields fail the selected handler's
validation — in either revision, the earlier one's `claimTaskReward` and
`executeSwap` guards included — the dispatcher answers with the descriptive
validation error and the only gateway call issued is the fire-and-forget
audit-log write, which does precede the failure, contrary to the claim as
stated (see the counterexample); no other gateway call is made. -/
theorem c5_validation_only_audit_call (cfg : Config) (env : Env)
    (body : JsonVal) (hn : body ≠ .null)
    (hu : jsFalsy (getField body "userId") = false)
    (ha : jsFalsy (getField body "action") = false) :
    (¬ actionKnown (getField body "action") →
      ApiIndex.handler cfg env "POST" (.parsed body) =
        (ApiIndex.errResponse
          ("Unknown action: " ++ jsToString (getField body "action")),
         ApiIndex.logAction cfg env (getField body "userId")
           (getField body "action") body) ∧
      Part000.handler cfg env "POST" (.parsed body) =
        (Part000.errResponse
          ("Unknown action: " ++ jsToString (getField body "action")),
         Part000.logAction cfg env (getField body "userId")
           (getField body "action") body)) ∧
    (getField body "action" = .str "addPoints" →
      validPoints (getField body "points") = false →
      ApiIndex.handler cfg env "POST" (.parsed body) =
        (ApiIndex.errResponse "Invalid points value.",
         ApiIndex.logAction cfg env (getField body "userId")
           (getField body "action") body) ∧
      Part000.handler cfg env "POST" (.parsed body) =
        (Part000.errResponse "Invalid points value.",
         Part000.logAction cfg env (getField body "userId")
           (getField body "action") body)) ∧
    (getField body "action" = .str "claimTaskReward" →
      ¬(getField body "task" = .str "joinChannel" ∧
        isNumber (getField body "reward") = true) →
      ApiIndex.handler cfg env "POST" (.parsed body) =
        (ApiIndex.errResponse "Invalid task data.",
         ApiIndex.logAction cfg env (getField body "userId")
           (getField body "action") body) ∧
      Part000.handler cfg env "POST" (.parsed body) =
        (Part000.errResponse "Invalid task or reward data.",
         Part000.logAction cfg env (getField body "userId")
           (getField body "action") body)) ∧
    (getField body "action" = .str "watchAd" →
      isNumber (getField body "reward") = false →
      ApiIndex.handler cfg env "POST" (.parsed body) =
        (ApiIndex.errResponse "Invalid ad reward.",
         ApiIndex.logAction cfg env (getField body "userId")
           (getField body "action") body) ∧
      Part000.handler cfg env "POST" (.parsed body) =
        (Part000.errResponse "Invalid ad reward value.",
         Part000.logAction cfg env (getField body "userId")
           (getField body "action") body)) ∧
    (getField body "action" = .str "executeSwap" →
      (¬(isNumber (getField body "newPoints") = true ∧
        jsTruthy (getField body "newUsdt") = true) →
        ApiIndex.handler cfg env "POST" (.parsed body) =
          (ApiIndex.errResponse "Invalid swap data.",
           ApiIndex.logAction cfg env (getField body "userId")
             (getField body "action") body)) ∧
      (¬(isNumber (getField body "points") = true ∧
        isNumber (getField body "newPoints") = true ∧
        jsTruthy (getField body "newUsdt") = true) →
        Part000.handler cfg env "POST" (.parsed body) =
          (Part000.errResponse "Invalid swap data.",
           Part000.logAction cfg env (getField body "userId")
             (getField body "action") body))) := by
  refine ⟨fun hk => ⟨?_, ?_⟩, fun hact hp => ⟨?_, ?_⟩, fun hact hv => ⟨?_, ?_⟩,
    fun hact hw => ⟨?_, ?_⟩, fun hact => ⟨fun hs => ?_, fun hs => ?_⟩⟩
  · rw [ApiIndex.handlePost_err cfg env body hn hu ha _ _
      (ApiIndex.runAction_unknown cfg env (getField body "userId")
        (getField body "action") body hk)]
    simp
  · rw [Part000.handlePost_err_p0 cfg env body hn hu ha _ _
      (Part000.runAction_unknown_p0 cfg env (getField body "userId")
        (getField body "action") body hk)]
    simp
  · have hr : ApiIndex.runAction cfg env (getField body "userId")
        (getField body "action") body = (.error "Invalid points value.", []) := by
      rw [hact]
      exact ApiIndex.runAction_addPoints_invalid cfg env _ body hp
    rw [ApiIndex.handlePost_err cfg env body hn hu ha _ _ hr]
    simp
  · have hr : Part000.runAction cfg env (getField body "userId")
        (getField body "action") body = (.error "Invalid points value.", []) := by
      rw [hact]
      exact Part000.runAction_addPoints_invalid_p0 cfg env _ body hp
    rw [Part000.handlePost_err_p0 cfg env body hn hu ha _ _ hr]
    simp
  · have hr : ApiIndex.runAction cfg env (getField body "userId")
        (getField body "action") body = (.error "Invalid task data.", []) := by
      rw [hact]
      exact ApiIndex.runAction_claim_invalid cfg env _ body hv
    rw [ApiIndex.handlePost_err cfg env body hn hu ha _ _ hr]
    simp
  · have hr : Part000.runAction cfg env (getField body "userId")
        (getField body "action") body =
        (.error "Invalid task or reward data.", []) := by
      rw [hact]
      exact Part000.runAction_claim_invalid_p0 cfg env _ body hv
    rw [Part000.handlePost_err_p0 cfg env body hn hu ha _ _ hr]
    simp
  · have hr : ApiIndex.runAction cfg env (getField body "userId")
        (getField body "action") body = (.error "Invalid ad reward.", []) := by
      rw [hact]
      exact ApiIndex.runAction_watchAd_invalid cfg env _ body hw
    rw [ApiIndex.handlePost_err cfg env body hn hu ha _ _ hr]
    simp
  · have hr : Part000.runAction cfg env (getField body "userId")
        (getField body "action") body =
        (.error "Invalid ad reward value.", []) := by
      rw [hact]
      exact Part000.runAction_watchAd_invalid_p0 cfg env _ body hw
    rw [Part000.handlePost_err_p0 cfg env body hn hu ha _ _ hr]
    simp
  · have hr : ApiIndex.runAction cfg env (getField body "userId")
        (getField body "action") body = (.error "Invalid swap data.", []) := by
      rw [hact]
      exact ApiIndex.runAction_swap_invalid cfg env _ body hs
    rw [ApiIndex.handlePost_err cfg env body hn hu ha _ _ hr]
    simp
  · have hr : Part000.runAction cfg env (getField body "userId")
        (getField body "action") body = (.error "Invalid swap data.", []) := by
      rw [hact]
      exact Part000.runAction_swap_invalid_p0 cfg env _ body hs
    rw [Part000.handlePost_err_p0 cfg env body hn hu ha _ _ hr]
    simp

/-- Counterexample for C5: on an unknown action the response is the
validation error, yet the trace of issued gateway calls is not empty — the
audit-log insert was already sent, so a gateway call does precede the
validation failure. -/
theorem c5_counterexample_audit_precedes_validation :
    (ApiIndex.handler cfgA envUsersEmpty "POST" (.parsed bodyUnk)).1 =
      ApiIndex.errResponse "Unknown action: wat" ∧
    (ApiIndex.handler cfgA envUsersEmpty "POST" (.parsed bodyUnk)).2 =
      [⟨"https://db.example/rest/v1/actions_log", "actions_log", "POST",
        some "return=minimal",
        some (jobj [("action", .str "wat"), ("user_id", .num 1),
          ("payload", bodyUnk)]), ""⟩] := by
  constructor
  · decide
  · decide

/-- Witness for C5: the unknown-action conjunct at a concrete request. -/
theorem c5_validation_only_audit_call_witness :
    ApiIndex.handler cfgA envUsersEmpty "POST" (.parsed bodyUnk) =
      (ApiIndex.errResponse
        ("Unknown action: " ++ jsToString (getField bodyUnk "action")),
       ApiIndex.logAction cfgA envUsersEmpty (getField bodyUnk "userId")
         (getField bodyUnk "action") bodyUnk) ∧
    Part000.handler cfgA envUsersEmpty "POST" (.parsed bodyUnk) =
      (Part000.errResponse
        ("Unknown action: " ++ jsToString (getField bodyUnk "action")),
       Part000.logAction cfgA envUsersEmpty (getField bodyUnk "userId")
         (getField bodyUnk "action") bodyUnk) :=
  (c5_validation_only_audit_call cfgA envUsersEmpty bodyUnk (by decide)
    (by decide) (by decide)).1 (by decide)

/-- The later revision's gateway result for a non-audit table depends only
on the part of the world the two environments agree on. -/
theorem ApiIndex.callSupabase_agree (cfg : Config) (env1 env2 : Env)
    (table method : String) (body : Option JsonVal) (filter : String)
    (ht : table ≠ "actions_log")
    (h : ∀ r, r.table ≠ "actions_log" → env1 r = env2 r) :
    ApiIndex.callSupabase cfg env1 table method body filter =
      ApiIndex.callSupabase cfg env2 table method body filter := by
  unfold callSupabase
  split
  · rfl
  · rw [h ⟨buildUrl cfg table filter, table, method, preferHeader table method,
      body, filter⟩ ht]

/-- Same for the earlier revision. -/
theorem Part000.callSupabase_agree_p0 (cfg : Config) (env1 env2 : Env)
    (table method : String) (body : Option JsonVal) (filter : String)
    (ht : table ≠ "actions_log")
    (h : ∀ r, r.table ≠ "actions_log" → env1 r = env2 r) :
    Part000.callSupabase cfg env1 table method body filter =
      Part000.callSupabase cfg env2 table method body filter := by
  unfold callSupabase
  rw [h ⟨buildUrl cfg table filter, table, method, preferHeader table method,
    body, filter⟩ ht]

/-- Action handlers of the later revision only query the `users` table, so
their result is unchanged when the audit-table outcomes change. -/
theorem ApiIndex.runAction_agree (cfg : Config) (env1 env2 : Env)
    (userId action body : JsonVal)
    (h : ∀ r, r.table ≠ "actions_log" → env1 r = env2 r) :
    ApiIndex.runAction cfg env1 userId action body =
      ApiIndex.runAction cfg env2 userId action body := by
  have hu : ∀ m b f, ApiIndex.callSupabase cfg env1 "users" m b f =
      ApiIndex.callSupabase cfg env2 "users" m b f :=
    fun m b f =>
      ApiIndex.callSupabase_agree cfg env1 env2 "users" m b f (by decide) h
  unfold runAction
  simp only [hu]

/-- Same for the earlier revision (whose handlers PATCH only `users`). -/
theorem Part000.runAction_agree_p0 (cfg : Config) (env1 env2 : Env)
    (userId action body : JsonVal)
    (h : ∀ r, r.table ≠ "actions_log" → env1 r = env2 r) :
    Part000.runAction cfg env1 userId action body =
      Part000.runAction cfg env2 userId action body := by
  have hu : ∀ m b f, Part000.callSupabase cfg env1 "users" m b f =
      Part000.callSupabase cfg env2 "users" m b f :=
    fun m b f =>
      Part000.callSupabase_agree_p0 cfg env1 env2 "users" m b f (by decide) h
  unfold runAction
  simp only [hu]

/-- The client-visible part of the later revision's POST pipeline, written
without the audit write: the response is a function of the body and of the
action handler's result alone. -/
theorem ApiIndex.handlePost_fst (cfg : Config) (env : Env) (bodyIn : BodyInput) :
    (ApiIndex.handlePost cfg env bodyIn).1 =
      (match ApiIndex.getBody bodyIn with
       | .error msg => ApiIndex.errResponse msg
       | .ok body =>
         if body = .null then ApiIndex.errResponse nullDestructureMsg
         else if (jsFalsy (getField body "userId") ||
             jsFalsy (getField body "action")) = true then
           ApiIndex.errResponse missingParamsMsg
         else
           match (ApiIndex.runAction cfg env (getField body "userId")
               (getField body "action") body).1 with
           | .ok d =>
             ⟨200, true, some (ApiIndex.mkEnvelope (getField body "action") d)⟩
           | .error m => ApiIndex.errResponse m) := by
  unfold handlePost
  cases bodyIn with
  | empty => rfl
  | malformed => rfl
  | parsed body =>
    simp only [getBody]
    by_cases hnull : body = .null
    · simp [hnull]
    · simp only [if_neg hnull]
      by_cases hmiss : (jsFalsy (getField body "userId") ||
          jsFalsy (getField body "action")) = true
      · simp [hmiss]
      · simp only [if_neg hmiss]
        cases hr : ApiIndex.runAction cfg env (getField body "userId")
            (getField body "action") body with
        | mk res calls =>
          cases res with
          | ok d => simp [hr]
          | error m => simp [hr]

/-- Same for the earlier revision. -/
theorem Part000.handlePost_fst_p0 (cfg : Config) (env : Env) (bodyIn : BodyInput) :
    (Part000.handlePost cfg env bodyIn).1 =
      (match Part000.getBody bodyIn with
       | .error msg => Part000.errResponse msg
       | .ok body =>
         if body = .null then Part000.errResponse nullDestructureMsg
         else if (jsFalsy (getField body "userId") ||
             jsFalsy (getField body "action")) = true then
           Part000.errResponse missingParamsMsg
         else
           match (Part000.runAction cfg env (getField body "userId")
               (getField body "action") body).1 with
           | .ok d =>
             ⟨200, true, some (Part000.mkEnvelope (getField body "action") d)⟩
           | .error m => Part000.errResponse m) := by
  unfold handlePost
  cases bodyIn with
  | empty => rfl
  | malformed => rfl
  | parsed body =>
    simp only [getBody]
    by_cases hnull : body = .null
    · simp [hnull]
    · simp only [if_neg hnull]
      by_cases hmiss : (jsFalsy (getField body "userId") ||
          jsFalsy (getField body "action")) = true
      · simp [hmiss]
      · simp only [if_neg hmiss]
        cases hr : Part000.runAction cfg env (getField body "userId")
            (getField body "action") body with
        | mk res calls =>
          cases res with
          | ok d => simp [hr]
          | error m => simp [hr]

/-- C8: a failure of the audit-log write is fully absorbed. For any two
worlds that agree on every request except those against the audit-log
table — in particular one where the audit insert fails and one where it
succeeds — the client response (status, envelope, payload) is identical,
in both revisions: the `.catch` discards the audit result and nothing in
the response path reads it. -/
theorem c8_audit_failure_absorbed (cfg : Config) (env1 env2 : Env)
    (method : String) (bodyIn : BodyInput)
    (h : ∀ r, r.table ≠ "actions_log" → env1 r = env2 r) :
    (ApiIndex.handler cfg env1 method bodyIn).1 =
      (ApiIndex.handler cfg env2 method bodyIn).1 ∧
    (Part000.handler cfg env1 method bodyIn).1 =
      (Part000.handler cfg env2 method bodyIn).1 := by
  constructor
  · unfold ApiIndex.handler
    split_ifs with h1 h2
    · rfl
    · rw [ApiIndex.handlePost_fst, ApiIndex.handlePost_fst]
      simp only [show ∀ u a b, ApiIndex.runAction cfg env1 u a b =
          ApiIndex.runAction cfg env2 u a b from
        fun u a b => ApiIndex.runAction_agree cfg env1 env2 u a b h]
    · rfl
  · unfold Part000.handler
    split_ifs with h1 h2
    · rfl
    · rw [Part000.handlePost_fst_p0, Part000.handlePost_fst_p0]
      simp only [show ∀ u a b, Part000.runAction cfg env1 u a b =
          Part000.runAction cfg env2 u a b from
        fun u a b => Part000.runAction_agree_p0 cfg env1 env2 u a b h]
    · rfl

/-- Witness for C8: a balance request gets the same response whether the
audit insert fails at the network level or succeeds. -/
theorem c8_audit_failure_absorbed_witness :
    (ApiIndex.handler cfgA envAuditFails "POST" (.parsed bodyBal)).1 =
      (ApiIndex.handler cfgA envAuditOk "POST" (.parsed bodyBal)).1 ∧
    (Part000.handler cfgA envAuditFails "POST" (.parsed bodyBal)).1 =
      (Part000.handler cfgA envAuditOk "POST" (.parsed bodyBal)).1 :=
  c8_audit_failure_absorbed cfgA envAuditFails envAuditOk "POST"
    (.parsed bodyBal)
    (fun r hr => by simp [envAuditFails, envAuditOk, hr])
